import Mathlib

/-!
# Greeting endpoint with tracing spans: model of `main.go`

The program registers one route, `GET /hello`, whose handler `Greetings`
opens a span, writes a status and three batches of attributes on it, and
answers with a fixed JSON payload.  `main` wires the tracer provider, the
route and the listener.

The model records what a Go function does as a list of events (the calls it
makes on the span, on the response and on the process), with explicit
treatment of `defer` and of process exit.  Calls into libraries whose result
is a value (URL rendering, query parsing, `%v` formatting, the clock, the
client address) are taken from a record of external functions; the port of a
URL is modelled after `net/url` so that it can be evaluated.
-/

namespace GoEcho

/-! ## Execution frames: calls, `defer`, `os.Exit` -/

/-- One activation of a Go function: the events performed so far, the calls
registered with `defer` (most recent first), and whether the process has
exited. -/
structure Frame (ε : Type) where
  trace : List ε
  deferred : List (List ε)
  exited : Bool

namespace Frame

/-- Fresh activation. -/
def enter {ε : Type} : Frame ε := ⟨[], [], false⟩

/-- An ordinary call statement: performed unless the process is gone. -/
def call {ε : Type} (f : Frame ε) (e : ε) : Frame ε :=
  if f.exited then f else { f with trace := f.trace ++ [e] }

/-- A `defer` statement: the call is pushed, to be run when the function
returns. The events of the deferred call are given as a list. -/
def deferCall {ε : Type} (f : Frame ε) (es : List ε) : Frame ε :=
  if f.exited then f else { f with deferred := es :: f.deferred }

/-- A call that ends the process (`os.Exit`): the event is recorded and
nothing runs afterwards, deferred calls included. -/
def exitWith {ε : Type} (f : Frame ε) (e : ε) : Frame ε :=
  if f.exited then f else { f with trace := f.trace ++ [e], exited := true }

/-- The function returns: deferred calls run in last-in-first-out order,
after the operands of the `return` statement have been evaluated. -/
def ret {ε : Type} (f : Frame ε) : List ε :=
  if f.exited then f.trace else f.trace ++ f.deferred.flatten

end Frame

/-! ## Request data -/

/-- The fields of `net/url.URL` the handler depends on. -/
structure URL where
  Scheme : String
  Host : String
  Path : String
  RawQuery : String
  deriving DecidableEq, Repr

/-- Go `map[string][]string`, the underlying type of both `http.Header` and
`url.Values`. -/
abbrev Values := List (String × List String)

/-- The fields of `http.Request` the handler reads. -/
structure Request where
  Method : String
  URL : URL
  Header : Values
  Host : String
  ContentLength : Int
  RemoteAddr : String
  deriving DecidableEq, Repr

/-- The `echo.Context` of one request: the request, and the error value that
writing the JSON response gives back. -/
structure Context where
  Request : Request
  JSONError : Option String
  deriving DecidableEq, Repr

/-- The `Get` of `http.Header` for a key already in canonical form: the
first value stored under the key, or the empty string. -/
def Header.Get (h : Values) (key : String) : String :=
  match h.lookup key with
  | some (v :: _) => v
  | _ => ""

/-- The `UserAgent` of `http.Request`. -/
def Request.UserAgent (r : Request) : String := Header.Get r.Header "User-Agent"

/-- The `Referer` of `http.Request`. -/
def Request.Referer (r : Request) : String := Header.Get r.Header "Referer"

/-! ## The port of a URL (`net/url`) -/

/-- Go `strings.LastIndexByte`: index of the last occurrence, or `-1`. -/
def LastIndexByte : List Char → Char → Int
  | [], _ => -1
  | x :: xs, c =>
    let i := LastIndexByte xs c
    if i ≠ -1 then i + 1 else if x = c then 0 else -1

/-- Go `validOptionalPort`: empty, or a colon followed by decimal digits. -/
def validOptionalPort (port : List Char) : Bool :=
  match port with
  | [] => true
  | p0 :: rest => if p0 ≠ ':' then false else rest.all (fun b => decide ('0' ≤ b ∧ b ≤ '9'))

/-- Go `splitHostPort`: separates host and port; a port that is not all
digits stays part of the host. -/
def splitHostPort (hostPort : List Char) : List Char × List Char :=
  let colon := LastIndexByte hostPort ':'
  let hp : List Char × List Char :=
    if colon ≠ -1 ∧ validOptionalPort (hostPort.drop colon.toNat) = true then
      (hostPort.take colon.toNat, hostPort.drop (colon.toNat + 1))
    else (hostPort, [])
  let host := hp.1
  if host.head? = some '[' ∧ host.getLast? = some ']' then
    ((host.drop 1).take (host.length - 2), hp.2)
  else hp

/-- The `Port` of `net/url.URL`: the port part of `u.Host`, without the
colon; empty when there is none. -/
def URL.Port (u : URL) : String := String.mk (splitHostPort u.Host.data).2

/-! ## Spans and attributes -/

/-- Span status codes of package `codes`. -/
inductive codes where
  | Unset
  | Error
  | Ok
  deriving DecidableEq, Repr

/-- The attribute keys of package `semconv` (v1.4.0) that concern this
handler. -/
inductive semconv where
  | HTTPMethodKey
  | HTTPSchemeKey
  | HTTPStatusCodeKey
  | HTTPTargetKey
  | HTTPURLKey
  | HTTPHostKey
  | NetHostPortKey
  | NetPeerPortKey
  | HTTPUserAgentKey
  | HTTPRequestContentLengthKey
  | NetPeerIPKey
  deriving DecidableEq, Repr

/-- An attribute key: a `semconv` constant or a key given by name. -/
inductive Key where
  | conv (k : semconv)
  | named (name : String)
  deriving DecidableEq, Repr

/-- An attribute value, tagged by the constructor the source uses. The
`Float64` case holds the 64-bit integer that the source converts with
`float64(...)`. -/
inductive Value where
  | Str (v : String)
  | Int (v : Int)
  | Int64 (v : Int)
  | Float64 (ofInt64 : Int)
  | StringSlice (v : List String)
  deriving DecidableEq, Repr

/-- A key with its value (`attribute.KeyValue`). -/
structure KeyValue where
  Key : Key
  Value : Value
  deriving DecidableEq, Repr

/-- The payload type `HelloWorld`; its one field is serialised under the
JSON name `message`. -/
structure HelloWorld where
  Message : String
  deriving DecidableEq, Repr

/-- A JSON document, as far as the payload needs it. -/
inductive JSON where
  | str (s : String)
  | obj (fields : List (String × JSON))
  deriving Repr

/-- The JSON object a `HelloWorld` value marshals to, by its field tag. -/
def HelloWorld.toJSON (h : HelloWorld) : JSON := JSON.obj [("message", JSON.str h.Message)]

/-- Go `http.StatusOK`. -/
def StatusOK : Nat := 200

/-- What one run of the handler does, in order. -/
inductive Event where
  | Start (spanName : String)
  | End
  | SetStatus (code : codes) (description : String)
  | SetAttributes (kv : List KeyValue)
  | JSON (code : Nat) (body : HelloWorld)
  deriving DecidableEq, Repr

/-- Library calls whose results the handler only passes on. -/
structure Extern where
  Now : Nat
  FormatRFC3339Nano : Nat → String
  SinceNanoseconds : Nat → Int
  URLString : URL → String
  URLQuery : URL → Values
  SprintfV : Values → String
  RealIP : Context → String

/-! ## The handler -/

/-- The handler `Greetings` of `main.go`: the events of one invocation and
the error value it returns. The span is started, its `End` is deferred, the
status and the three attribute batches are written, and the JSON response is
written by the operand of `return`. -/
def Greetings (ext : Extern) (c : Context) : List Event × Option String :=
  let startTime := ext.Now
  let f : Frame Event := Frame.enter
  let f := f.call (Event.Start "Greetings")
  let f := f.deferCall [Event.End]
  let r := c.Request
  let method := r.Method
  let scheme := "http"
  let statusCode := StatusOK
  let host := r.Host
  let port := r.URL.Port
  let port := if port = "" then "8081" else port
  let f := f.call (Event.SetStatus codes.Ok "")
  let f := f.call (Event.SetAttributes [
    ⟨Key.conv semconv.HTTPMethodKey, Value.Str method⟩,
    ⟨Key.conv semconv.HTTPSchemeKey, Value.Str scheme⟩,
    ⟨Key.conv semconv.HTTPStatusCodeKey, Value.Int statusCode⟩,
    ⟨Key.conv semconv.HTTPTargetKey, Value.Str r.URL.Path⟩,
    ⟨Key.conv semconv.HTTPURLKey, Value.Str (ext.URLString r.URL)⟩,
    ⟨Key.conv semconv.HTTPHostKey, Value.Str host⟩,
    ⟨Key.conv semconv.NetHostPortKey, Value.Str port⟩,
    ⟨Key.conv semconv.HTTPUserAgentKey, Value.Str r.UserAgent⟩,
    ⟨Key.conv semconv.HTTPRequestContentLengthKey, Value.Int64 r.ContentLength⟩,
    ⟨Key.conv semconv.NetPeerIPKey, Value.Str (ext.RealIP c)⟩])
  let f := f.call (Event.SetAttributes [
    ⟨Key.named "created_at", Value.Str (ext.FormatRFC3339Nano startTime)⟩,
    ⟨Key.named "duration_ns", Value.Float64 (ext.SinceNanoseconds startTime)⟩,
    ⟨Key.named "parent_id", Value.Str ""⟩,
    ⟨Key.named "referer", Value.Str r.Referer⟩,
    ⟨Key.named "request_type", Value.Str "Incoming"⟩,
    ⟨Key.named "sdk_type", Value.Str "echo"⟩,
    ⟨Key.named "service_version", Value.Str ""⟩,
    ⟨Key.named "tags", Value.StringSlice []⟩])
  let f := f.call (Event.SetAttributes [
    ⟨Key.named "path_params", Value.Str r.URL.Path⟩,
    ⟨Key.named "query_params", Value.Str (ext.SprintfV (ext.URLQuery r.URL))⟩,
    ⟨Key.named "request_body", Value.Str "\x7b\x7d"⟩,
    ⟨Key.named "request_headers", Value.Str (ext.SprintfV r.Header)⟩,
    ⟨Key.named "response_body", Value.Str "\x7b\x7d"⟩,
    ⟨Key.named "response_headers", Value.Str "\x7b\x7d"⟩])
  let f := f.call (Event.JSON StatusOK { Message := "Hello World" })
  (f.ret, c.JSONError)

/-! ## Reading a handler trace -/

/-- The attribute batches of a trace, in the order written. -/
def batches : List Event → List (List KeyValue)
  | [] => []
  | Event.SetAttributes kv :: es => kv :: batches es
  | _ :: es => batches es

/-- The value a trace records for a key: batches are applied in order and a
later write of a key replaces an earlier one. -/
def recorded (es : List Event) (k : Key) : Option Value :=
  ((batches es).flatten.reverse.find? (fun kv => decide (kv.Key = k))).map (fun kv => kv.Value)

/-- The responses written on a trace: status code and JSON document. -/
def responses : List Event → List (Nat × JSON)
  | [] => []
  | Event.JSON code body :: es => (code, body.toJSON) :: responses es
  | _ :: es => responses es

/-- Span operations: everything but the response write. -/
def isSpanOp : Event → Bool
  | Event.JSON _ _ => false
  | _ => true

/-- Writes on the span: attribute batches and the status. -/
def isSpanWrite : Event → Bool
  | Event.SetAttributes _ => true
  | Event.SetStatus _ _ => true
  | _ => false

/-- An attribute batch. -/
def isSetAttributes : Event → Bool
  | Event.SetAttributes _ => true
  | _ => false

/-- A span start. -/
def isStart : Event → Bool
  | Event.Start _ => true
  | _ => false

/-- The span end. -/
def isEnd : Event → Bool
  | Event.End => true
  | _ => false

/-- A status write. -/
def isSetStatus : Event → Bool
  | Event.SetStatus _ _ => true
  | _ => false

/-- A response write. -/
def isJSON : Event → Bool
  | Event.JSON _ _ => true
  | _ => false

/-- Some event satisfying `p` occurs strictly before some event satisfying
`q`. -/
def occursBefore (p q : Event → Bool) : List Event → Bool
  | [] => false
  | e :: es => (p e && es.any q) || occursBefore p q es

/-! ## The process: `main` -/

/-- What `main` does, in order. -/
inductive ProcEvent where
  | Tracer (name : String)
  | InitTracerProvider
  | Shutdown
  | LogPrintf (format : String) (err : String)
  | SetTracerProvider
  | SetTextMapPropagator
  | EchoNew
  | GET (path : String)
  | Start (address : String)
  | LoggerFatal (err : String)
  | OsExit (code : Nat)
  deriving DecidableEq, Repr

/-- The deferred closure of `main`: shut the provider down and log the
error, if there is one. -/
def shutdownClosure (shutdownErr : Option String) : List ProcEvent :=
  match shutdownErr with
  | some err => [ProcEvent.Shutdown, ProcEvent.LogPrintf "Error shutting down tracer provider: %v" err]
  | none => [ProcEvent.Shutdown]

/-- The function `main` of `main.go`, for a run in which `e.Start` returns
`startErr` and a shutdown of the provider would return `shutdownErr`.
`e.Logger.Fatal` (echo's logger) logs its argument and then calls
`os.Exit(1)`; `os.Exit` ends the process at once and deferred functions are
not run. -/
def main (startErr : String) (shutdownErr : Option String) : List ProcEvent :=
  let f : Frame ProcEvent := Frame.enter
  let f := f.call (ProcEvent.Tracer "simple go echo project")
  let f := f.call ProcEvent.InitTracerProvider
  let f := f.deferCall (shutdownClosure shutdownErr)
  let f := f.call ProcEvent.SetTracerProvider
  let f := f.call ProcEvent.SetTextMapPropagator
  let f := f.call ProcEvent.EchoNew
  let f := f.call (ProcEvent.GET "/hello")
  let f := f.call (ProcEvent.Start ":3000")
  let f := f.call (ProcEvent.LoggerFatal startErr)
  let f := f.exitWith (ProcEvent.OsExit 1)
  f.ret

/-- An event of `main` that runs the provider shutdown. -/
def isShutdown : ProcEvent → Bool
  | ProcEvent.Shutdown => true
  | _ => false

/-- A sample of the external functions, for evaluating the handler. -/
def ext0 : Extern where
  Now := 0
  FormatRFC3339Nano := fun _ => "1970-01-01T00:00:00Z"
  SinceNanoseconds := fun _ => 0
  URLString := fun u => u.Path
  URLQuery := fun _ => []
  SprintfV := fun _ => "map[]"
  RealIP := fun c => c.Request.RemoteAddr

/-- A request for `/hello` in origin form (no host in the URL), with the
given `Host` header. -/
def originForm (host : String) : Context :=
  { Request := { Method := "GET", URL := ⟨"", "", "/hello", ""⟩, Header := [],
                 Host := host, ContentLength := 0, RemoteAddr := "127.0.0.1:40000" },
    JSONError := none }

/-- A request whose URL is absolute, with the given URL host part. -/
def absoluteForm (urlHost : String) : Context :=
  { Request := { Method := "GET", URL := ⟨"http", urlHost, "/hello", ""⟩, Header := [],
                 Host := urlHost, ContentLength := 0, RemoteAddr := "127.0.0.1:40000" },
    JSONError := none }

/-! ## Deferred calls -/

/-- On a normal return the deferred calls run after the body, the most
recently deferred first. -/
theorem Frame.ret_runs_deferred {ε : Type} (e : ε) (ds ds' : List ε) :
    (((Frame.enter.deferCall ds).deferCall ds').call e).ret = [e] ++ ds' ++ ds := by
  simp [Frame.ret, Frame.call, Frame.deferCall, Frame.enter]

/-- After an exit the deferred calls do not run, and neither do later
statements. -/
theorem Frame.exit_skips_deferred {ε : Type} (e e' : ε) (ds : List ε) :
    (((Frame.enter.deferCall ds).exitWith e).call e').ret = [e] := by
  simp [Frame.ret, Frame.call, Frame.deferCall, Frame.exitWith, Frame.enter]

/-! ## The trace of the handler -/

/-- The handler performs the same seven calls for every request; only the
attribute values vary. -/
theorem Greetings_trace (ext : Extern) (c : Context) :
    (Greetings ext c).1 =
      [Event.Start "Greetings",
       Event.SetStatus codes.Ok "",
       Event.SetAttributes [
        ⟨Key.conv semconv.HTTPMethodKey, Value.Str c.Request.Method⟩,
        ⟨Key.conv semconv.HTTPSchemeKey, Value.Str "http"⟩,
        ⟨Key.conv semconv.HTTPStatusCodeKey, Value.Int 200⟩,
        ⟨Key.conv semconv.HTTPTargetKey, Value.Str c.Request.URL.Path⟩,
        ⟨Key.conv semconv.HTTPURLKey, Value.Str (ext.URLString c.Request.URL)⟩,
        ⟨Key.conv semconv.HTTPHostKey, Value.Str c.Request.Host⟩,
        ⟨Key.conv semconv.NetHostPortKey,
          Value.Str (if c.Request.URL.Port = "" then "8081" else c.Request.URL.Port)⟩,
        ⟨Key.conv semconv.HTTPUserAgentKey, Value.Str c.Request.UserAgent⟩,
        ⟨Key.conv semconv.HTTPRequestContentLengthKey, Value.Int64 c.Request.ContentLength⟩,
        ⟨Key.conv semconv.NetPeerIPKey, Value.Str (ext.RealIP c)⟩],
       Event.SetAttributes [
        ⟨Key.named "created_at", Value.Str (ext.FormatRFC3339Nano ext.Now)⟩,
        ⟨Key.named "duration_ns", Value.Float64 (ext.SinceNanoseconds ext.Now)⟩,
        ⟨Key.named "parent_id", Value.Str ""⟩,
        ⟨Key.named "referer", Value.Str c.Request.Referer⟩,
        ⟨Key.named "request_type", Value.Str "Incoming"⟩,
        ⟨Key.named "sdk_type", Value.Str "echo"⟩,
        ⟨Key.named "service_version", Value.Str ""⟩,
        ⟨Key.named "tags", Value.StringSlice []⟩],
       Event.SetAttributes [
        ⟨Key.named "path_params", Value.Str c.Request.URL.Path⟩,
        ⟨Key.named "query_params", Value.Str (ext.SprintfV (ext.URLQuery c.Request.URL))⟩,
        ⟨Key.named "request_body", Value.Str "\x7b\x7d"⟩,
        ⟨Key.named "request_headers", Value.Str (ext.SprintfV c.Request.Header)⟩,
        ⟨Key.named "response_body", Value.Str "\x7b\x7d"⟩,
        ⟨Key.named "response_headers", Value.Str "\x7b\x7d"⟩],
       Event.JSON 200 { Message := "Hello World" },
       Event.End] := rfl

/-- The port the handler keeps after the fallback step. -/
theorem recorded_port (ext : Extern) (c : Context) :
    recorded (Greetings ext c).1 (Key.conv semconv.NetHostPortKey) =
      some (Value.Str (if c.Request.URL.Port = "" then "8081" else c.Request.URL.Port)) := by
  rw [Greetings_trace]
  simp [recorded, batches]

/-! ## The recorded port -/

/-- C1: for every request the value recorded under the net host port key is
the port of the request URL when that port is not empty, and the literal
"8081" when it is empty; a URL `http://localhost/hello` gives "8081" and a
URL `http://localhost:9090/hello` gives "9090". -/
theorem net_host_port_fallback (ext : Extern) (c : Context) :
    recorded (Greetings ext c).1 (Key.conv semconv.NetHostPortKey) =
        some (Value.Str (if c.Request.URL.Port = "" then "8081" else c.Request.URL.Port))
    ∧ recorded (Greetings ext (absoluteForm "localhost")).1 (Key.conv semconv.NetHostPortKey) =
        some (Value.Str "8081")
    ∧ recorded (Greetings ext (absoluteForm "localhost:9090")).1 (Key.conv semconv.NetHostPortKey) =
        some (Value.Str "9090") := by
  refine ⟨recorded_port ext c, ?_, ?_⟩
  · rw [recorded_port]; rfl
  · rw [recorded_port]; rfl

/-- C10: the recorded port depends on the request URL only and is never the
empty string: two requests with the same URL record the same port whatever
their `Host` headers, and a request for `/hello` in origin form records
"8081" under every `Host` header. -/
theorem port_depends_on_URL_only (ext ext' : Extern) (c c' : Context)
    (h : c.Request.URL = c'.Request.URL) :
    recorded (Greetings ext c).1 (Key.conv semconv.NetHostPortKey) =
        recorded (Greetings ext' c').1 (Key.conv semconv.NetHostPortKey)
    ∧ recorded (Greetings ext c).1 (Key.conv semconv.NetHostPortKey) ≠ some (Value.Str "")
    ∧ recorded (Greetings ext c).1 (Key.conv semconv.NetHostPortKey) ≠ none
    ∧ ∀ host : String,
        recorded (Greetings ext (originForm host)).1 (Key.conv semconv.NetHostPortKey) =
          some (Value.Str "8081") := by
  refine ⟨?_, ?_, ?_, ?_⟩
  · rw [recorded_port, recorded_port, h]
  · rw [recorded_port]
    intro hp
    injection hp with hp
    injection hp with hp
    by_cases hq : c.Request.URL.Port = ""
    · rw [if_pos hq] at hp
      exact absurd hp (by decide)
    · rw [if_neg hq] at hp
      exact hq hp
  · rw [recorded_port]
    exact Option.some_ne_none _
  · intro host
    rw [recorded_port]
    rfl

/-- C10, at a concrete pair: two requests for `/hello` in origin form whose `Host` headers name the
ports 9090 and 3000 record the same port, "8081". -/
theorem port_depends_on_URL_only_witness :
    recorded (Greetings ext0 (originForm "localhost:9090")).1 (Key.conv semconv.NetHostPortKey) =
        recorded (Greetings ext0 (originForm "localhost:3000")).1 (Key.conv semconv.NetHostPortKey)
    ∧ recorded (Greetings ext0 (originForm "localhost:9090")).1 (Key.conv semconv.NetHostPortKey) =
        some (Value.Str "8081") :=
  ⟨(port_depends_on_URL_only ext0 ext0 (originForm "localhost:9090")
      (originForm "localhost:3000") rfl).1,
   (port_depends_on_URL_only ext0 ext0 (originForm "localhost:9090")
      (originForm "localhost:3000") rfl).2.2.2 "localhost:9090"⟩

/-! ## The response -/

/-- C2: for every request the handler writes exactly one response, with
status 200 and the JSON object whose only field is `message`, equal to
"Hello World". -/
theorem response_fixed (ext : Extern) (c : Context) :
    responses (Greetings ext c).1 =
      [(200, JSON.obj [("message", JSON.str "Hello World")])] := by
  rw [Greetings_trace]
  rfl

/-! ## The span: status, placeholders, batches -/

/-- C4: for every request the status of the span is written exactly once,
with code `Ok` and the empty description. -/
theorem status_once_Ok (ext : Extern) (c : Context) :
    (Greetings ext c).1.filter isSetStatus = [Event.SetStatus codes.Ok ""] := by
  rw [Greetings_trace]
  rfl

/-- C5: for every request the span records `tags` as the empty string list
and `service_version` and `parent_id` as the empty string. -/
theorem placeholders_constant (ext : Extern) (c : Context) :
    recorded (Greetings ext c).1 (Key.named "tags") = some (Value.StringSlice [])
    ∧ recorded (Greetings ext c).1 (Key.named "service_version") = some (Value.Str "")
    ∧ recorded (Greetings ext c).1 (Key.named "parent_id") = some (Value.Str "") := by
  rw [Greetings_trace]
  refine ⟨?_, ?_, ?_⟩ <;> simp [recorded, batches]

/-- C9: for every request the third attribute batch holds `path_params`
with the path of the URL, the same string that the first batch records as
HTTP target; `query_params` and `request_headers` with the `%v` renderings
of the query mapping and of the header mapping; and `request_body`,
`response_body` and `response_headers` with the constant "{}". -/
theorem third_batch (ext : Extern) (c : Context) :
    (batches (Greetings ext c).1).get? 2 = some [
        ⟨Key.named "path_params", Value.Str c.Request.URL.Path⟩,
        ⟨Key.named "query_params", Value.Str (ext.SprintfV (ext.URLQuery c.Request.URL))⟩,
        ⟨Key.named "request_body", Value.Str "\x7b\x7d"⟩,
        ⟨Key.named "request_headers", Value.Str (ext.SprintfV c.Request.Header)⟩,
        ⟨Key.named "response_body", Value.Str "\x7b\x7d"⟩,
        ⟨Key.named "response_headers", Value.Str "\x7b\x7d"⟩]
    ∧ recorded (Greetings ext c).1 (Key.named "path_params") =
        recorded (Greetings ext c).1 (Key.conv semconv.HTTPTargetKey)
    ∧ (batches (Greetings ext c).1).length = 3 := by
  rw [Greetings_trace]
  refine ⟨rfl, ?_, rfl⟩
  simp [recorded, batches]

/-- C8, as stated, fails: for a request with URL `http://localhost:9090/hello`
the first batch is not the list whose seventh attribute is the net peer
port; no attribute of that batch has the net peer port key. -/
theorem first_batch_has_no_peer_port :
    (batches (Greetings ext0 (absoluteForm "localhost:9090")).1).head? ≠ some [
        ⟨Key.conv semconv.HTTPMethodKey, Value.Str "GET"⟩,
        ⟨Key.conv semconv.HTTPSchemeKey, Value.Str "http"⟩,
        ⟨Key.conv semconv.HTTPStatusCodeKey, Value.Int 200⟩,
        ⟨Key.conv semconv.HTTPTargetKey, Value.Str "/hello"⟩,
        ⟨Key.conv semconv.HTTPURLKey, Value.Str "/hello"⟩,
        ⟨Key.conv semconv.HTTPHostKey, Value.Str "localhost:9090"⟩,
        ⟨Key.conv semconv.NetPeerPortKey, Value.Str "9090"⟩,
        ⟨Key.conv semconv.HTTPUserAgentKey, Value.Str ""⟩,
        ⟨Key.conv semconv.HTTPRequestContentLengthKey, Value.Int64 0⟩,
        ⟨Key.conv semconv.NetPeerIPKey, Value.Str "127.0.0.1:40000"⟩]
    ∧ recorded (Greetings ext0 (absoluteForm "localhost:9090")).1
        (Key.conv semconv.NetPeerPortKey) = none := by
  decide

/-- C8, amended: for every request the first attribute batch is exactly
these ten semantic attributes in this order: HTTP method, scheme "http",
status code 200, target path, full URL, host, net host port (the port after
the fallback step), user agent, request content length as a 64-bit integer,
and client IP under the net peer IP key. -/
theorem first_batch (ext : Extern) (c : Context) :
    (batches (Greetings ext c).1).head? = some [
        ⟨Key.conv semconv.HTTPMethodKey, Value.Str c.Request.Method⟩,
        ⟨Key.conv semconv.HTTPSchemeKey, Value.Str "http"⟩,
        ⟨Key.conv semconv.HTTPStatusCodeKey, Value.Int 200⟩,
        ⟨Key.conv semconv.HTTPTargetKey, Value.Str c.Request.URL.Path⟩,
        ⟨Key.conv semconv.HTTPURLKey, Value.Str (ext.URLString c.Request.URL)⟩,
        ⟨Key.conv semconv.HTTPHostKey, Value.Str c.Request.Host⟩,
        ⟨Key.conv semconv.NetHostPortKey,
          Value.Str (if c.Request.URL.Port = "" then "8081" else c.Request.URL.Port)⟩,
        ⟨Key.conv semconv.HTTPUserAgentKey, Value.Str c.Request.UserAgent⟩,
        ⟨Key.conv semconv.HTTPRequestContentLengthKey, Value.Int64 c.Request.ContentLength⟩,
        ⟨Key.conv semconv.NetPeerIPKey, Value.Str (ext.RealIP c)⟩] := by
  rw [Greetings_trace]
  rfl

/-! ## The span: order of operations -/

/-- C3, as stated, fails: for a request for `/hello` the end of the span
does not come before the response write. -/
theorem End_not_before_response :
    ¬ ((Greetings ext0 (originForm "localhost:3000")).1.filter isStart = [Event.Start "Greetings"]
        ∧ occursBefore isEnd isJSON (Greetings ext0 (originForm "localhost:3000")).1 = true) := by
  decide

/-- C3, amended: for every request one invocation starts exactly one span,
named "Greetings", and ends it exactly once; the end is the last event of
the invocation and comes after the response write, never before it. -/
theorem one_span_ended_after_response (ext : Extern) (c : Context) :
    (Greetings ext c).1.filter isStart = [Event.Start "Greetings"]
    ∧ (Greetings ext c).1.filter isEnd = [Event.End]
    ∧ (Greetings ext c).1.getLast? = some Event.End
    ∧ occursBefore isJSON isEnd (Greetings ext c).1 = true
    ∧ occursBefore isEnd isJSON (Greetings ext c).1 = false := by
  rw [Greetings_trace]
  exact ⟨rfl, rfl, rfl, rfl, rfl⟩

/-- C6: among the span operations of one invocation the start is the first
and the end is the last; the operations between them are the status write
and the three attribute batches, and they are all the writes there are: no
write comes before the start or after the end. -/
theorem span_writes_between_start_and_end (ext : Extern) (c : Context) :
    ((Greetings ext c).1.filter isSpanOp).head? = some (Event.Start "Greetings")
    ∧ ((Greetings ext c).1.filter isSpanOp).getLast? = some Event.End
    ∧ ((Greetings ext c).1.filter isSpanOp).tail.dropLast.all isSpanWrite = true
    ∧ (((Greetings ext c).1.filter isSpanOp).tail.dropLast.filter isSetAttributes).length = 3
    ∧ (((Greetings ext c).1.filter isSpanOp).tail.dropLast.filter isSetStatus).length = 1
    ∧ (((Greetings ext c).1.filter isSpanOp).filter isSpanWrite).length = 4
    ∧ occursBefore isSpanWrite isStart ((Greetings ext c).1.filter isSpanOp) = false
    ∧ occursBefore isEnd isSpanWrite ((Greetings ext c).1.filter isSpanOp) = false := by
  rw [Greetings_trace]
  exact ⟨rfl, rfl, rfl, rfl, rfl, rfl, rfl, rfl⟩

/-! ## The process -/

/-- C7, on the code: when `e.Start` returns, `main` reaches `e.Logger.Fatal`
and the process exits with code 1; the deferred shutdown of the provider is
not run, and no shutdown error is logged. Shown for every error value, and on
the run in which the port is already taken. -/
theorem main_exits_without_Shutdown :
    (∀ (startErr : String) (shutdownErr : Option String),
        (main startErr shutdownErr).any isShutdown = false
        ∧ (main startErr shutdownErr).getLast? = some (ProcEvent.OsExit 1))
    ∧ main "listen tcp :3000: bind: address already in use" (some "context canceled") =
        [ProcEvent.Tracer "simple go echo project",
         ProcEvent.InitTracerProvider,
         ProcEvent.SetTracerProvider,
         ProcEvent.SetTextMapPropagator,
         ProcEvent.EchoNew,
         ProcEvent.GET "/hello",
         ProcEvent.Start ":3000",
         ProcEvent.LoggerFatal "listen tcp :3000: bind: address already in use",
         ProcEvent.OsExit 1] :=
  ⟨fun _ _ => ⟨rfl, rfl⟩, rfl⟩

end GoEcho
